import Mathlib

/-!
Verification of the OG-Ollama-UI streaming chat relay specification.

The repository ships the React frontend (src/App.tsx) together with the
specification of its FastAPI backend (rebeldev-backend: routers/chat.py and
the provider services ollama.py / openai.py / perplex.py, declared in the
project structure but not present in the source tree).  The relay, adapter
and query definitions below are therefore modelled from the specification's
own words; the App component is embedded directly from src/App.tsx.
-/

namespace OGOllamaUI

/-- Modelled from the spec (§3 ChatMessage): the role of one chat message,
one of the three variants user / assistant / system. -/
inductive Role
  | user
  | assistant
  | system
deriving DecidableEq, Repr, BEq

/-- Modelled from the spec (§3 ChatMessage): role, content, timestamp
(instants are modelled as naturals). -/
structure ChatMessage where
  role : Role
  content : String
  timestamp : Nat
deriving DecidableEq, Repr

/-- Modelled from the spec (§3 ChatRequest): the normalized chat request.
The provider is carried as a string at the boundary so that an unregistered
provider name (e.g. "mistral") is representable; temperature is a rational
standing for the float in [0,2]. -/
structure ChatRequest where
  message : String
  model : String
  provider : String
  stream : Bool
  history : List ChatMessage
  systemPrompt : Option String
  maxTokens : Option Nat
  temperature : Option Rat
deriving DecidableEq, Repr

/-- Modelled from the spec (§4.1 error conditions): the adapter-origin
error kinds. -/
inductive ErrKind
  | UpstreamUnreachable
  | AuthenticationMissing
  | InvalidModel
  | UpstreamProtocolError
deriving DecidableEq, Repr

/-- Modelled from the spec (§3 StreamEvent): the tagged event variant
Partial / Done / Error; metadata maps are association lists. -/
inductive StreamEvent
  | Partial (content : String) (metadata : List (String × String))
  | Done (metadata : List (String × String))
  | Error (kind : ErrKind) (message : String)
deriving DecidableEq, Repr

/-- Modelled from the spec (§7 taxonomy): whole-call failures of the relay:
client-side `InvalidRequest` and `UnknownProvider`, or an adapter-origin
upstream failure. -/
inductive RelayError
  | UnknownProvider
  | InvalidRequest
  | Upstream (kind : ErrKind) (message : String)
deriving DecidableEq, Repr

/-- Modelled from the spec (§4.1): usage summary of a non-streaming
response. -/
structure Usage where
  promptTokens : Nat
  completionTokens : Nat
  totalTokens : Nat
deriving DecidableEq, Repr

/-- Modelled from the spec (§6): the non-streaming ChatResponse. -/
structure ChatResponse where
  message : String
  model : String
  provider : String
  usage : Option Usage
  metadata : List (String × String)
deriving DecidableEq, Repr

/-- Modelled from the spec (§3 ModelInfo). -/
structure ModelInfo where
  name : String
  provider : String
  size : Option Nat
  modifiedAt : Option Nat
  description : Option String
deriving DecidableEq, Repr

/-- Modelled from the spec (§3 ChatMessage invariant): content may be empty
only for role=system placeholders. -/
def ChatMessage.contentOk (m : ChatMessage) : Bool :=
  !(m.content == "") || (m.role == Role.system)

/-- Modelled from the spec (§3 ChatRequest invariants and §4.1 input
constraints): model non-empty, maxTokens a positive integer when present,
temperature in [0,2] when present, every history message well formed. -/
def ChatRequest.valid (r : ChatRequest) : Bool :=
  !(r.model == "")
    && (match r.maxTokens with
        | none => true
        | some n => decide (0 < n))
    && (match r.temperature with
        | none => true
        | some t => decide (0 ≤ t ∧ t ≤ 2))
    && r.history.all ChatMessage.contentOk

/-- Modelled from the spec (§4.1, §4.3; the provider services
rebeldev-backend/app/services/{ollama,openai,perplex}.py are absent from the
source tree): one provider adapter, abstracted by the event sequence its
streaming send produces, the token usage it reports, its model list and its
health probe (the latter two may fail, carrying a message). -/
structure Adapter where
  send : ChatRequest → List StreamEvent
  usage : ChatRequest → Option (Nat × Nat)
  models : Except String (List ModelInfo)
  health : Except String Bool

/-- Modelled from the spec (§5 shared resources): the immutable adapter
registry, provider name → adapter. -/
abbrev Registry : Type := List (String × Adapter)

/-- Modelled from the spec (§4.2 step 1): select the adapter registered
under the given provider name, if any. -/
def lookupAdapter : Registry → String → Option Adapter
  | [], _ => none
  | (n, a) :: rest, p => if n == p then some a else lookupAdapter rest p

/-- Is the event a Partial event? -/
def StreamEvent.isPartialEvent : StreamEvent → Bool
  | StreamEvent.Partial _ _ => true
  | _ => false

/-- Is the event a terminal event (Done or Error)? -/
def StreamEvent.isTerminalEvent : StreamEvent → Bool
  | StreamEvent.Partial _ _ => false
  | _ => true

/-- Modelled from the spec (§4.2 step 3; rebeldev-backend/app/routers/chat.py
is absent from the source tree): the relay's forwarding loop.  Partial
events are forwarded as received; the first terminal event ends the output;
if the adapter's sequence ends without a terminal event, a Done event is
synthesized as fallback. -/
def forward : List StreamEvent → List StreamEvent
  | [] => [StreamEvent.Done []]
  | StreamEvent.Partial c m :: rest => StreamEvent.Partial c m :: forward rest
  | StreamEvent.Done m :: _ => [StreamEvent.Done m]
  | StreamEvent.Error k msg :: _ => [StreamEvent.Error k msg]

/-- Outcome of one streaming relay invocation: the event sequence (or a
whole-call failure) paired with the number of adapter invocations made. -/
structure StreamOutcome where
  result : Except RelayError (List StreamEvent)
  adapterCalls : Nat

/-- Modelled from the spec (§4.2 algorithm steps 1–3): the streaming relay.
Adapter selection first (UnknownProvider if none registered), then request
validation (InvalidRequest before contacting any adapter), then one adapter
invocation whose events are forwarded. -/
def relay (reg : Registry) (r : ChatRequest) : StreamOutcome :=
  match lookupAdapter reg r.provider with
  | none => ⟨Except.error RelayError.UnknownProvider, 0⟩
  | some a =>
    if ChatRequest.valid r then ⟨Except.ok (forward (a.send r)), 1⟩
    else ⟨Except.error RelayError.InvalidRequest, 0⟩

/-- Modelled from the spec (§4.2 step 5): accumulate partial content into
one message; an Error event fails the whole accumulation, a Done event ends
it. -/
def accumulate : List StreamEvent → Except RelayError String
  | [] => Except.ok ""
  | StreamEvent.Partial c _ :: rest =>
    match accumulate rest with
    | Except.ok s => Except.ok (c ++ s)
    | Except.error e => Except.error e
  | StreamEvent.Done _ :: _ => Except.ok ""
  | StreamEvent.Error k msg :: _ => Except.error (RelayError.Upstream k msg)

/-- Modelled from the spec (§4.1): build the usage summary from the token
counts the adapter reports, totalTokens being their sum; unset when the
adapter reports none. -/
def mkUsage : Option (Nat × Nat) → Option Usage
  | none => none
  | some (p, c) => some ⟨p, c, p + c⟩

/-- Modelled from the spec (§4.2 steps 1, 2, 5): the non-streaming relay.
Same selection and validation as the streaming path; the adapter's stream is
accumulated into one ChatResponse, and an interrupting Error fails the whole
call.  The second component counts adapter invocations. -/
def relayOnce (reg : Registry) (r : ChatRequest) :
    Except RelayError ChatResponse × Nat :=
  match lookupAdapter reg r.provider with
  | none => (Except.error RelayError.UnknownProvider, 0)
  | some a =>
    if ChatRequest.valid r then
      match accumulate (a.send r) with
      | Except.error e => (Except.error e, 1)
      | Except.ok content =>
        (Except.ok ⟨content, r.model, r.provider, mkUsage (a.usage r), []⟩, 1)
    else (Except.error RelayError.InvalidRequest, 0)

/-- Modelled from the spec (§4.3): list the models of one provider; an
unknown provider or a failing adapter yields the empty list, never an
error. -/
def listModels (reg : Registry) (p : String) : List ModelInfo :=
  match lookupAdapter reg p with
  | none => []
  | some a =>
    match a.models with
    | Except.ok ms => ms
    | Except.error _ => []

/-- Modelled from the spec (§4.3): probe every registered provider; a
failing adapter maps to false, never an error. -/
def checkHealth (reg : Registry) : List (String × Bool) :=
  reg.map fun pa =>
    (pa.1, match pa.2.health with
           | Except.ok b => b
           | Except.error _ => false)

/-- Outcome of a cancelled streaming relay invocation: the events forwarded
before cancellation and whether the cancellation signal was propagated to
the adapter's upstream connection. -/
structure CancelOutcome where
  forwarded : List StreamEvent
  upstreamClosed : Bool
deriving DecidableEq, Repr

/-- Modelled from the spec (§4.2 step 4, §5 cancellation): the streaming
relay when the caller cancels after n forwarded events.  Forwarding stops at
the cancellation point, no terminal Done is synthesized for a cancelled
stream, and cancellation is propagated upstream (the connection is
closed). -/
def relayCancelled (reg : Registry) (r : ChatRequest) (n : Nat) :
    Except RelayError CancelOutcome :=
  match lookupAdapter reg r.provider with
  | none => Except.error RelayError.UnknownProvider
  | some a =>
    if ChatRequest.valid r then
      Except.ok ⟨((a.send r).takeWhile StreamEvent.isPartialEvent).take n, true⟩
    else Except.error RelayError.InvalidRequest

/-- Modelled from the spec (§4.2 state machine): the per-request states. -/
inductive RequestState
  | Pending
  | Streaming
  | Completed
  | Failed
  | Cancelled
deriving DecidableEq, Repr, Fintype

/-- Is the state one of the three terminal states? -/
def isTerminalState : RequestState → Bool
  | RequestState.Completed => true
  | RequestState.Failed => true
  | RequestState.Cancelled => true
  | _ => false

/-- Modelled from the spec (§4.2 state machine): the allowed transitions
Pending → Streaming → one of Completed / Failed / Cancelled. -/
def stateStep : RequestState → RequestState → Bool
  | RequestState.Pending, RequestState.Streaming => true
  | RequestState.Streaming, RequestState.Completed => true
  | RequestState.Streaming, RequestState.Failed => true
  | RequestState.Streaming, RequestState.Cancelled => true
  | _, _ => false

/-- A run of the per-request state machine: consecutive states are related
by an allowed transition. -/
def validRun : List RequestState → Bool
  | [] => true
  | [_] => true
  | s :: t :: rest => stateStep s t && validRun (t :: rest)

/-- A stream is well terminated when it consists of zero or more Partial
events followed by exactly one terminal event. -/
def wellTerminated : List StreamEvent → Bool
  | [] => false
  | e :: rest =>
    match rest with
    | [] => StreamEvent.isTerminalEvent e
    | _ :: _ => StreamEvent.isPartialEvent e && wellTerminated rest

/-- From src/src/App.tsx: the element kinds the App component can render —
the HomePage page element and the Toaster element. -/
inductive AppElement
  | HomePageEl
  | ToasterEl
deriving DecidableEq, Repr

/-- From src/src/App.tsx lines 12–14: the Routes block declares a single
Route with path "/" rendering HomePage, so a path renders the page exactly
when it is "/". -/
def routeElements (path : String) : List AppElement :=
  if path == "/" then [AppElement.HomePageEl] else []

/-- From src/src/App.tsx lines 10–17: the App component renders the Routes
block for the current path followed by the Toaster, unconditionally. -/
def appRender (path : String) : List AppElement :=
  routeElements path ++ [AppElement.ToasterEl]

/-- The stub adapter of the spec's round-trip property (§8): it emits
Partial "Hel", Partial "lo", Done. -/
def stubAdapter : Adapter where
  send := fun _ =>
    [StreamEvent.Partial "Hel" [], StreamEvent.Partial "lo" [], StreamEvent.Done []]
  usage := fun _ => some (10, 15)
  models := Except.ok []
  health := Except.ok true

/-- A stub adapter whose model list and health probe fail. -/
def failingAdapter : Adapter where
  send := fun _ => []
  usage := fun _ => none
  models := Except.error "unreachable"
  health := Except.error "unreachable"

/-- A stub adapter that fails mid-stream after two Partial events (§8). -/
def erroringAdapter : Adapter where
  send := fun _ =>
    [StreamEvent.Partial "a" [], StreamEvent.Partial "b" [],
     StreamEvent.Error ErrKind.UpstreamProtocolError "boom"]
  usage := fun _ => none
  models := Except.ok []
  health := Except.ok true

/-- The request of the spec's round-trip property (§8):
ChatRequest{message:"hi", model:"llama3.2", provider:"ollama", stream:true}. -/
def okRequest : ChatRequest where
  message := "hi"
  model := "llama3.2"
  provider := "ollama"
  stream := true
  history := []
  systemPrompt := none
  maxTokens := none
  temperature := none

/-- okRequest addressed to the unregistered provider "mistral" (§8). -/
def mistralRequest : ChatRequest :=
  { okRequest with provider := "mistral" }

/-- okRequest with an empty model name, violating the §3 invariants. -/
def badRequest : ChatRequest :=
  { okRequest with model := "" }

/-- A registry holding the round-trip stub adapter under "ollama". -/
def stubRegistry : Registry := [("ollama", stubAdapter)]

/-- A registry holding the failing adapter under "ollama". -/
def failRegistry : Registry := [("ollama", failingAdapter)]

/-- A registry holding the mid-stream-erroring adapter under "ollama". -/
def errRegistry : Registry := [("ollama", erroringAdapter)]

/-! ## Helper lemmas -/

theorem isTerminalEvent_of_not_isPartialEvent (e : StreamEvent)
    (h : StreamEvent.isPartialEvent e = false) :
    StreamEvent.isTerminalEvent e = true := by
  cases e <;> simp_all [StreamEvent.isPartialEvent, StreamEvent.isTerminalEvent]

theorem not_isTerminalEvent_of_isPartialEvent (e : StreamEvent)
    (h : StreamEvent.isPartialEvent e = true) :
    StreamEvent.isTerminalEvent e = false := by
  cases e <;> simp_all [StreamEvent.isPartialEvent, StreamEvent.isTerminalEvent]

theorem forward_ne_nil (l : List StreamEvent) : forward l ≠ [] := by
  cases l with
  | nil => simp [forward]
  | cons e rest => cases e <;> simp [forward]

theorem wellTerminated_cons_cons (e f : StreamEvent) (rest : List StreamEvent) :
    wellTerminated (e :: f :: rest) =
      (StreamEvent.isPartialEvent e && wellTerminated (f :: rest)) := rfl

theorem wellTerminated_singleton (e : StreamEvent) :
    wellTerminated [e] = StreamEvent.isTerminalEvent e := rfl

theorem wellTerminated_forward (l : List StreamEvent) :
    wellTerminated (forward l) = true := by
  induction l with
  | nil => rfl
  | cons e rest ih =>
    cases e with
    | Partial c m =>
      rw [forward]
      cases hf : forward rest with
      | nil => exact absurd hf (forward_ne_nil rest)
      | cons f fr =>
        rw [wellTerminated_cons_cons]
        rw [hf] at ih
        simp [StreamEvent.isPartialEvent, ih]
    | Done m => rfl
    | Error k msg => rfl

theorem countP_terminal_of_wellTerminated (l : List StreamEvent)
    (h : wellTerminated l = true) :
    l.countP StreamEvent.isTerminalEvent = 1 := by
  induction l with
  | nil => simp [wellTerminated] at h
  | cons e rest ih =>
    cases rest with
    | nil =>
      rw [wellTerminated_singleton] at h
      simp [List.countP_cons, h]
    | cons f fr =>
      rw [wellTerminated_cons_cons, Bool.and_eq_true] at h
      rw [List.countP_cons, ih h.2, not_isTerminalEvent_of_isPartialEvent e h.1]
      simp

theorem forward_all_partials (l : List StreamEvent)
    (h : ∀ e ∈ l, StreamEvent.isPartialEvent e = true) :
    forward l = l ++ [StreamEvent.Done []] := by
  induction l with
  | nil => rfl
  | cons e rest ih =>
    cases e with
    | Partial c m =>
      rw [forward, ih fun x hx => h x (List.mem_cons_of_mem _ hx)]
      rfl
    | Done m => simp [StreamEvent.isPartialEvent] at h
    | Error k msg => simp [StreamEvent.isPartialEvent] at h

theorem forward_wellTerminated_id (l : List StreamEvent)
    (h : wellTerminated l = true) : forward l = l := by
  induction l with
  | nil => simp [wellTerminated] at h
  | cons e rest ih =>
    cases rest with
    | nil =>
      rw [wellTerminated_singleton] at h
      cases e with
      | Partial c m => simp [StreamEvent.isTerminalEvent] at h
      | Done m => rfl
      | Error k msg => rfl
    | cons f fr =>
      rw [wellTerminated_cons_cons, Bool.and_eq_true] at h
      cases e with
      | Partial c m => rw [forward, ih h.2]
      | Done m => simp [StreamEvent.isPartialEvent] at h
      | Error k msg => simp [StreamEvent.isPartialEvent] at h

theorem accumulate_partials_error (pre rest : List StreamEvent) (k : ErrKind)
    (msg : String) (hP : ∀ e ∈ pre, StreamEvent.isPartialEvent e = true) :
    accumulate (pre ++ StreamEvent.Error k msg :: rest) =
      Except.error (RelayError.Upstream k msg) := by
  induction pre with
  | nil => rfl
  | cons e pre ih =>
    cases e with
    | Partial c m =>
      rw [List.cons_append, accumulate,
        ih fun x hx => hP x (List.mem_cons_of_mem _ hx)]
    | Done m => simp [StreamEvent.isPartialEvent] at hP
    | Error k0 m0 => simp [StreamEvent.isPartialEvent] at hP

theorem mkUsage_sum (o : Option (Nat × Nat)) (u : Usage)
    (h : mkUsage o = some u) :
    u.totalTokens = u.promptTokens + u.completionTokens := by
  cases o with
  | none => simp [mkUsage] at h
  | some pc =>
    simp [mkUsage] at h
    rw [← h]

theorem validRun_cons (s t : RequestState) (rest : List RequestState)
    (h : validRun (s :: t :: rest) = true) :
    stateStep s t = true ∧ validRun (t :: rest) = true := by
  simpa [validRun, Bool.and_eq_true] using h

theorem not_terminal_of_stateStep (s t : RequestState)
    (h : stateStep s t = true) : isTerminalState s = false := by
  cases s <;> cases t <;> simp_all [stateStep, isTerminalState]

theorem countP_terminal_validRun (run : List RequestState)
    (h : validRun run = true) : run.countP isTerminalState ≤ 1 := by
  induction run with
  | nil => simp
  | cons a rest ih =>
    cases rest with
    | nil =>
      rw [List.countP_cons]
      cases isTerminalState a <;> simp
    | cons b rest2 =>
      obtain ⟨h1, h2⟩ := validRun_cons a b rest2 h
      rw [List.countP_cons, not_terminal_of_stateStep a b h1]
      simpa using ih h2

theorem terminal_only_last_validRun (run : List RequestState)
    (h : validRun run = true) :
    ∀ s ∈ run.dropLast, isTerminalState s = false := by
  induction run with
  | nil => intro s hs; simp at hs
  | cons a rest ih =>
    cases rest with
    | nil => intro s hs; simp [List.dropLast] at hs
    | cons b rest2 =>
      obtain ⟨h1, h2⟩ := validRun_cons a b rest2 h
      intro s hs
      rw [List.dropLast_cons₂] at hs
      rcases List.mem_cons.mp hs with hsa | hsrest
      · rw [hsa]; exact not_terminal_of_stateStep a b h1
      · exact ih h2 s hsrest

/-! ## Claim theorems -/

/-- C1: for every valid ChatRequest in streaming mode (its provider has a
registered adapter and it passes validation), `relay` produces a sequence of
zero or more Partial events followed by exactly one terminal event — never
zero, never more than one, nothing after it — and when the adapter's
sequence ends without an explicit terminal event the relay appends a
synthesized Done event. -/
theorem C1_stream_well_terminated (reg : Registry) (r : ChatRequest)
    (a : Adapter) (hA : lookupAdapter reg r.provider = some a)
    (hV : ChatRequest.valid r = true) :
    ∃ evs, (relay reg r).result = Except.ok evs ∧
      wellTerminated evs = true ∧
      evs.countP StreamEvent.isTerminalEvent = 1 ∧
      ((∀ e ∈ a.send r, StreamEvent.isPartialEvent e = true) →
        evs = a.send r ++ [StreamEvent.Done []]) := by
  refine ⟨forward (a.send r), ?_, wellTerminated_forward _,
    countP_terminal_of_wellTerminated _ (wellTerminated_forward _),
    fun h => forward_all_partials _ h⟩
  simp [relay, hA, hV]

/-- Witness for C1 at the round-trip stub registry and request. -/
theorem C1_stream_well_terminated_witness :
    ∃ evs, (relay stubRegistry okRequest).result = Except.ok evs ∧
      wellTerminated evs = true ∧
      evs.countP StreamEvent.isTerminalEvent = 1 ∧
      ((∀ e ∈ stubAdapter.send okRequest, StreamEvent.isPartialEvent e = true) →
        evs = stubAdapter.send okRequest ++ [StreamEvent.Done []]) :=
  C1_stream_well_terminated stubRegistry okRequest stubAdapter rfl rfl

/-- C2: for every ChatRequest whose provider has no registered adapter, both
relay modes fail with UnknownProvider and the adapter call count is zero. -/
theorem C2_unknown_provider (reg : Registry) (r : ChatRequest)
    (h : lookupAdapter reg r.provider = none) :
    (relay reg r).result = Except.error RelayError.UnknownProvider ∧
    (relay reg r).adapterCalls = 0 ∧
    (relayOnce reg r).1 = Except.error RelayError.UnknownProvider ∧
    (relayOnce reg r).2 = 0 := by
  simp [relay, relayOnce, h]

/-- Witness for C2: provider "mistral" is not registered. -/
theorem C2_unknown_provider_witness :
    (relay stubRegistry mistralRequest).result =
      Except.error RelayError.UnknownProvider ∧
    (relay stubRegistry mistralRequest).adapterCalls = 0 ∧
    (relayOnce stubRegistry mistralRequest).1 =
      Except.error RelayError.UnknownProvider ∧
    (relayOnce stubRegistry mistralRequest).2 = 0 :=
  C2_unknown_provider stubRegistry mistralRequest rfl

/-- C3: for every ChatRequest violating the §3 invariants, no adapter is
ever invoked (call count zero in both modes), and whenever an adapter is
registered for its provider the relay fails with InvalidRequest (with no
registered adapter, adapter selection fails first with UnknownProvider, per
§4.2 step 1). -/
theorem C3_invalid_request (reg : Registry) (r : ChatRequest)
    (h : ChatRequest.valid r = false) :
    (relay reg r).adapterCalls = 0 ∧
    (relayOnce reg r).2 = 0 ∧
    ∀ a, lookupAdapter reg r.provider = some a →
      (relay reg r).result = Except.error RelayError.InvalidRequest ∧
      (relayOnce reg r).1 = Except.error RelayError.InvalidRequest := by
  cases hA : lookupAdapter reg r.provider with
  | none => simp [relay, relayOnce, hA]
  | some a => simp [relay, relayOnce, hA, h]

/-- Witness for C3 at the empty-model request. -/
theorem C3_invalid_request_witness :
    (relay stubRegistry badRequest).adapterCalls = 0 ∧
    (relayOnce stubRegistry badRequest).2 = 0 ∧
    ∀ a, lookupAdapter stubRegistry badRequest.provider = some a →
      (relay stubRegistry badRequest).result =
        Except.error RelayError.InvalidRequest ∧
      (relayOnce stubRegistry badRequest).1 =
        Except.error RelayError.InvalidRequest :=
  C3_invalid_request stubRegistry badRequest rfl

/-- C4: every successful non-streaming relay result has usage either unset
or satisfying totalTokens = promptTokens + completionTokens (fields are
naturals, hence nonnegative) — never a mismatched partial sum. -/
theorem C4_usage_sum (reg : Registry) (r : ChatRequest) (resp : ChatResponse)
    (h : (relayOnce reg r).1 = Except.ok resp) :
    resp.usage = none ∨
      ∃ u, resp.usage = some u ∧
        u.totalTokens = u.promptTokens + u.completionTokens := by
  cases hA : lookupAdapter reg r.provider with
  | none => simp [relayOnce, hA] at h
  | some a =>
    simp only [relayOnce, hA] at h
    by_cases hV : ChatRequest.valid r = true
    · rw [if_pos hV] at h
      cases hAcc : accumulate (a.send r) with
      | error e => rw [hAcc] at h; simp at h
      | ok content =>
        rw [hAcc] at h
        simp at h
        cases hU : mkUsage (a.usage r) with
        | none => left; rw [← h]; exact hU
        | some u =>
          right
          exact ⟨u, by rw [← h]; exact hU, mkUsage_sum (a.usage r) u hU⟩
    · rw [if_neg hV] at h; simp at h

/-- Witness for C4 at the stub registry and request. -/
theorem C4_usage_sum_witness :
    ({ message := "Hello", model := "llama3.2", provider := "ollama",
       usage := some ⟨10, 15, 25⟩, metadata := [] } : ChatResponse).usage
        = none ∨
      ∃ u, ({ message := "Hello", model := "llama3.2", provider := "ollama",
              usage := some ⟨10, 15, 25⟩, metadata := [] } : ChatResponse).usage
          = some u ∧
        u.totalTokens = u.promptTokens + u.completionTokens :=
  C4_usage_sum stubRegistry okRequest
    { message := "Hello", model := "llama3.2", provider := "ollama",
      usage := some ⟨10, 15, 25⟩, metadata := [] } rfl

/-- C5: cancelling an in-flight stream after n forwarded Partial events
yields exactly those n events, all Partial, with no Done event ever emitted
afterwards, and the cancellation signal is propagated to the adapter's
upstream connection. -/
theorem C5_cancelled_stream (reg : Registry) (r : ChatRequest) (a : Adapter)
    (n : Nat) (hA : lookupAdapter reg r.provider = some a)
    (hV : ChatRequest.valid r = true)
    (hN : n ≤ ((a.send r).takeWhile StreamEvent.isPartialEvent).length) :
    ∃ out, relayCancelled reg r n = Except.ok out ∧
      out.forwarded.length = n ∧
      (∀ e ∈ out.forwarded, StreamEvent.isPartialEvent e = true) ∧
      (∀ m, StreamEvent.Done m ∉ out.forwarded) ∧
      out.upstreamClosed = true := by
  refine ⟨⟨((a.send r).takeWhile StreamEvent.isPartialEvent).take n, true⟩,
    ?_, ?_, ?_, ?_, rfl⟩
  · simp [relayCancelled, hA, hV]
  · simpa using hN
  · intro e he
    exact List.mem_takeWhile_imp (List.mem_of_mem_take he)
  · intro m hm
    have := List.mem_takeWhile_imp (List.mem_of_mem_take hm)
    simp [StreamEvent.isPartialEvent] at this

/-- Witness for C5: cancel after one event at the stub registry. -/
theorem C5_cancelled_stream_witness :
    ∃ out, relayCancelled stubRegistry okRequest 1 = Except.ok out ∧
      out.forwarded.length = 1 ∧
      (∀ e ∈ out.forwarded, StreamEvent.isPartialEvent e = true) ∧
      (∀ m, StreamEvent.Done m ∉ out.forwarded) ∧
      out.upstreamClosed = true :=
  C5_cancelled_stream stubRegistry okRequest stubAdapter 1 rfl rfl
    (by simp [stubAdapter, StreamEvent.isPartialEvent])

/-- C6: listModels and checkHealth are total and never propagate adapter
failure: an unknown provider or a failing adapter yields the empty model
list, and a provider whose adapter's health probe fails is reported false
in checkHealth. -/
theorem C6_models_health_no_raise (reg : Registry) (p : String) :
    (lookupAdapter reg p = none → listModels reg p = []) ∧
    (∀ a, lookupAdapter reg p = some a → ∀ e, a.models = Except.error e →
      listModels reg p = []) ∧
    (∀ name a e, (name, a) ∈ reg → a.health = Except.error e →
      (name, false) ∈ checkHealth reg) := by
  refine ⟨fun h => by simp [listModels, h], fun a hA e hE => ?_, ?_⟩
  · simp [listModels, hA, hE]
  · intro name a e hmem hE
    exact List.mem_map.mpr ⟨(name, a), hmem, by simp [hE]⟩

/-- Witness for C6 at the failing adapter registry. -/
theorem C6_models_health_no_raise_witness :
    listModels failRegistry "ollama" = [] ∧
    ("ollama", false) ∈ checkHealth failRegistry :=
  ⟨(C6_models_health_no_raise failRegistry "ollama").2.1 failingAdapter rfl
      "unreachable" rfl,
   (C6_models_health_no_raise failRegistry "ollama").2.2 "ollama"
      failingAdapter "unreachable" (by simp [failRegistry]) rfl⟩

/-- C7: the relay is the identity on event content and order within one
stream: the round-trip request against the stub adapter emitting
Partial "Hel", Partial "lo", Done is relayed unchanged, and in general
forwarding any well-terminated adapter sequence returns it unchanged. -/
theorem C7_roundtrip_identity :
    (relay stubRegistry okRequest).result =
      Except.ok [StreamEvent.Partial "Hel" [], StreamEvent.Partial "lo" [],
        StreamEvent.Done []] ∧
    ∀ l, wellTerminated l = true → forward l = l :=
  ⟨rfl, fun l h => forward_wellTerminated_id l h⟩

/-- Witness for C7 at a one-event well-terminated stream. -/
theorem C7_roundtrip_identity_witness :
    forward [StreamEvent.Done []] = [StreamEvent.Done []] :=
  C7_roundtrip_identity.2 [StreamEvent.Done []] rfl

/-- C8: in non-stream mode, an Error event interrupting the accumulation of
partial content fails the whole call with that error — the relay never
returns partially accumulated content. -/
theorem C8_error_fails_whole_call (reg : Registry) (r : ChatRequest)
    (a : Adapter) (pre rest : List StreamEvent) (k : ErrKind) (msg : String)
    (hA : lookupAdapter reg r.provider = some a)
    (hV : ChatRequest.valid r = true)
    (hS : a.send r = pre ++ StreamEvent.Error k msg :: rest)
    (hP : ∀ e ∈ pre, StreamEvent.isPartialEvent e = true) :
    (relayOnce reg r).1 = Except.error (RelayError.Upstream k msg) := by
  simp only [relayOnce, hA, if_pos hV, hS,
    accumulate_partials_error pre rest k msg hP]

/-- Witness for C8: the adapter that fails mid-stream after two Partial
events yields a whole-call UpstreamProtocolError. -/
theorem C8_error_fails_whole_call_witness :
    (relayOnce errRegistry okRequest).1 =
      Except.error (RelayError.Upstream ErrKind.UpstreamProtocolError "boom") :=
  C8_error_fails_whole_call errRegistry okRequest erroringAdapter
    [StreamEvent.Partial "a" [], StreamEvent.Partial "b" []] []
    ErrKind.UpstreamProtocolError "boom" rfl rfl rfl (by decide)

/-- C9: the per-request state machine admits exactly the transitions
Pending → Streaming → one of Completed / Failed / Cancelled, no transition
leaves a terminal state, and in any valid run a terminal state occurs at
most once and only as the last state. -/
theorem C9_request_state_machine :
    (∀ s t, stateStep s t = true ↔
      ((s = RequestState.Pending ∧ t = RequestState.Streaming) ∨
       (s = RequestState.Streaming ∧ isTerminalState t = true))) ∧
    (∀ s t, isTerminalState s = true → stateStep s t = false) ∧
    (∀ run, validRun run = true → run.countP isTerminalState ≤ 1) ∧
    (∀ run, validRun run = true →
      ∀ s ∈ run.dropLast, isTerminalState s = false) :=
  ⟨by decide, by decide,
   fun run h => countP_terminal_validRun run h,
   fun run h => terminal_only_last_validRun run h⟩

/-- Witness for C9 at the run Pending, Streaming, Completed. -/
theorem C9_request_state_machine_witness :
    stateStep RequestState.Pending RequestState.Streaming = true ∧
    ([RequestState.Pending, RequestState.Streaming,
      RequestState.Completed].countP isTerminalState ≤ 1) ∧
    (∀ s ∈ [RequestState.Pending, RequestState.Streaming,
      RequestState.Completed].dropLast, isTerminalState s = false) :=
  ⟨(C9_request_state_machine.1 RequestState.Pending
      RequestState.Streaming).mpr (Or.inl ⟨rfl, rfl⟩),
   C9_request_state_machine.2.2.1 _ (by decide),
   C9_request_state_machine.2.2.2 _ (by decide)⟩

/-- C10: the App component renders the Toaster unconditionally on every
route, and renders the HomePage page element exactly when the current route
path is "/"; any other path renders no page element. -/
theorem C10_app_routes (path : String) :
    AppElement.ToasterEl ∈ appRender path ∧
    (AppElement.HomePageEl ∈ appRender path ↔ path = "/") ∧
    (¬ path = "/" → routeElements path = []) := by
  by_cases h : path = "/"
  · subst h
    refine ⟨by simp [appRender, routeElements], ?_, fun hc => absurd rfl hc⟩
    simp [appRender, routeElements]
  · have hb : (path == "/") = false := by
      simpa using h
    refine ⟨by simp [appRender, routeElements, hb], ?_, fun _ => by
      simp [routeElements, hb]⟩
    simp [appRender, routeElements, hb, h]

/-- Witness for C10 at the root path and at a non-root path. -/
theorem C10_app_routes_witness :
    AppElement.HomePageEl ∈ appRender "/" ∧
    routeElements "/about" = [] :=
  ⟨(C10_app_routes "/").2.1.mpr rfl,
   (C10_app_routes "/about").2.2 (by decide)⟩

end OGOllamaUI
